import Mathlib

/-
Verification development for the dttm library (src/tmp/dttm.py), a set of
date/time UDFs built around a fuzzy temporal parser.

Shallow embedding notes:

The library represents temporal values as Python `datetime` objects that are
rendered to strings between calls; every user-facing function takes an
`input_text` string and begins by calling `parse_temporal`, which is a direct
wrapper around the third-party `dateutil.parser.parse(text, fuzzy=True)`.
The token-scanning half of dateutil lives outside this repository, so the
embedding works at the level of the partial field record the parser extracts
from the text (`PartialRec`): every function that takes an `input_text` string
in the source takes a `PartialRec` here.  dateutil fills fields the text did
not specify from the default instant
`datetime.now().replace(hour=0, minute=0, second=0, microsecond=0)` -- the
current date at midnight -- so the model additionally threads the current
date (`Date3`) through every call.

Strings produced by `str(datetime)` ("YYYY-MM-DD HH:MM:SS[.ffffff]") are
fully specified, so re-parsing them is modelled by `recordOf`, the fully
specified record of a datetime.  Calendar arithmetic (ordinals, leap years,
month tables, `fromOrdinal`) is translated from CPython's `datetime` module
(`_days_before_year`, `_days_before_month`, `_ymd2ord`, `_ord2ymd`), which is
what the source's `datetime`/`timetuple`/`strftime` calls compute.  Dispatch
functions that return `''` for an unknown unit alias are modelled with
`Option` (`none` = the empty-string result) or with an explicit `.str ""`
value; Python exceptions (NameError, AttributeError, ValueError) are modelled
with `Except PyErr`.  The model covers naive (offset-free) temporals, which
is the domain of every claim below.
-/

namespace Dttm

/-- Python exception kinds raised by the code paths modelled here. -/
inductive PyErr where
  | nameError : String → PyErr
  | attributeError : String → PyErr
  | valueError : String → PyErr
deriving DecidableEq, Repr

/-- The parsed temporal value: the fields of a naive Python `datetime`. -/
structure DT where
  year : Nat
  month : Nat
  day : Nat
  hour : Nat
  minute : Nat
  second : Nat
  microsecond : Nat
deriving DecidableEq, Repr

/-- The partial field record that `dateutil.parser.parse(text, fuzzy=True)`
extracts from an input text: each field is `some v` when the text specifies
it and `none` when it does not.  This is the model of an `input_text`
argument. -/
structure PartialRec where
  year : Option Nat
  month : Option Nat
  day : Option Nat
  hour : Option Nat
  minute : Option Nat
  second : Option Nat
  microsecond : Option Nat
deriving DecidableEq, Repr

/-- The current local date (what `datetime.now()` reports at call time);
dateutil uses it, at midnight, as the default instant for unspecified
fields. -/
structure Date3 where
  y : Nat
  m : Nat
  d : Nat
deriving DecidableEq, Repr

/-- Month lengths of a non-leap year (CPython `_DAYS_IN_MONTH`, 1-indexed
via `m - 1`). -/
def DAYS_IN_MONTH_TABLE : List Nat := [31, 28, 31, 30, 31, 30, 31, 31, 30, 31, 30, 31]

/-- Cumulative days before each month in a non-leap year (CPython
`_DAYS_BEFORE_MONTH`). -/
def DAYS_BEFORE_MONTH_TABLE : List Nat := [0, 31, 59, 90, 120, 151, 181, 212, 243, 273, 304, 334]

/-- Gregorian leap-year rule (CPython `_is_leap`). -/
def isLeap (y : Nat) : Bool := y % 4 == 0 && (y % 100 != 0 || y % 400 == 0)

/-- Days in a month of a given year (CPython `_days_in_month`). -/
def daysInMonth (y m : Nat) : Nat :=
  if m = 2 ∧ isLeap y then 29 else DAYS_IN_MONTH_TABLE.getD (m - 1) 0

/-- Days in the year strictly before month `m` (CPython `_days_before_month`). -/
def daysBeforeMonth (y m : Nat) : Nat :=
  DAYS_BEFORE_MONTH_TABLE.getD (m - 1) 0 + (if 2 < m ∧ isLeap y then 1 else 0)

/-- Days before January 1 of year `y`, counted from ordinal day 0
(CPython `_days_before_year`); `Int` so that year 0 behaves like Python's
floor division. -/
def daysBeforeYear (y : Nat) : Int :=
  let p : Int := (y : Int) - 1
  365 * p + p / 4 - p / 100 + p / 400

/-- Proleptic-Gregorian ordinal of a date, with 0001-01-01 = 1 (CPython
`_ymd2ord`, i.e. `date.toordinal()`). -/
def toOrdinal (y m d : Nat) : Int :=
  daysBeforeYear y + daysBeforeMonth y m + d

/-- Inverse of `toOrdinal` (CPython `_ord2ymd`, i.e. `date.fromordinal()`);
meaningful for ordinals ≥ 1, which is the range Python's datetime supports. -/
def fromOrdinal (nI : Int) : Nat × Nat × Nat :=
  let n0 := (nI - 1).toNat
  let n400 := n0 / 146097
  let r1 := n0 % 146097
  let n100 := r1 / 36524
  let r2 := r1 % 36524
  let n4 := r2 / 1461
  let r3 := r2 % 1461
  let n1 := r3 / 365
  let n := r3 % 365
  let year := n400 * 400 + 1 + n100 * 100 + n4 * 4 + n1
  if n1 = 4 ∨ n100 = 4 then (year - 1, 12, 31)
  else
    let leap := n1 = 3 ∧ (n4 ≠ 24 ∨ n100 = 3)
    let mo := (n + 50) / 32
    let preceding := DAYS_BEFORE_MONTH_TABLE.getD (mo - 1) 0 + (if 2 < mo ∧ leap then 1 else 0)
    if n < preceding then
      let mo' := mo - 1
      let preceding' := preceding - (DAYS_IN_MONTH_TABLE.getD (mo' - 1) 0 + (if mo' = 2 ∧ leap then 1 else 0))
      (year, mo', n - preceding' + 1)
    else (year, mo, n - preceding + 1)

/-- Absolute microsecond count of a datetime (ordinal day times 86400
seconds, plus the time of day, in microseconds); Python compares and
subtracts datetimes through exactly this quantity. -/
def totalMicros (dt : DT) : Int :=
  (toOrdinal dt.year dt.month dt.day * 86400
    + (dt.hour : Int) * 3600 + (dt.minute : Int) * 60 + (dt.second : Int)) * 1000000
    + (dt.microsecond : Int)

/-- Exact elapsed-time addition of `k` microseconds (what adding a
`timedelta` -- or the day/hour/minute/second/microsecond fields of a
`relativedelta` -- does to a datetime). -/
def addMicros (k : Int) (dt : DT) : DT :=
  let t := totalMicros dt + k
  let micro := (t % 1000000).toNat
  let secs := t / 1000000
  let sod := (secs % 86400).toNat
  let ord := secs / 86400
  let ymd := fromOrdinal ord
  ⟨ymd.1, ymd.2.1, ymd.2.2, sod / 3600, (sod / 60) % 60, sod % 60, micro⟩

/-- Calendar-aware month addition with day-of-month clamping: what applying
`relativedelta(months=k)` (or `years=k/12`) to a datetime does -- the year
and month advance arithmetically and the day is clamped to the length of the
target month. -/
def addMonthsRD (k : Int) (dt : DT) : DT :=
  let idx : Int := (dt.year : Int) * 12 + ((dt.month : Int) - 1) + k
  let y := (idx / 12).toNat
  let m := (idx % 12).toNat + 1
  { dt with year := y, month := m, day := min dt.day (daysInMonth y m) }

/-- Modelled from dateutil: `parse_temporal(input_text)` is
`dateutil.parser.parse(input_text, fuzzy=True)` (dttm.py line 137).  dateutil
builds the result by replacing, on the default instant
`datetime.now().replace(hour=0, minute=0, second=0, microsecond=0)`, exactly
the fields found in the text; so each unspecified field takes its value from
the current date at midnight. -/
def parse_temporal (r : PartialRec) (today : Date3) : DT :=
  { year := r.year.getD today.y
    month := r.month.getD today.m
    day := r.day.getD today.d
    hour := r.hour.getD 0
    minute := r.minute.getD 0
    second := r.second.getD 0
    microsecond := r.microsecond.getD 0 }

/-- The record extracted back out of `str(datetime)` output
("YYYY-MM-DD HH:MM:SS[.ffffff]"): date and time are always printed, the
microsecond part only when nonzero.  This models every `str(...)`
round trip between dttm functions. -/
def recordOf (dt : DT) : PartialRec :=
  { year := some dt.year
    month := some dt.month
    day := some dt.day
    hour := some dt.hour
    minute := some dt.minute
    second := some dt.second
    microsecond := if dt.microsecond = 0 then none else some dt.microsecond }

/-- Left-pad a decimal rendering with zeros to width `w`. -/
def pad (w n : Nat) : String :=
  let s := toString n
  if s.length < w then String.mk (List.replicate (w - s.length) '0') ++ s else s

/-- Python's `str(datetime)` for a naive value. -/
def dtStr (dt : DT) : String :=
  pad 4 dt.year ++ "-" ++ pad 2 dt.month ++ "-" ++ pad 2 dt.day ++ " "
    ++ pad 2 dt.hour ++ ":" ++ pad 2 dt.minute ++ ":" ++ pad 2 dt.second
    ++ (if dt.microsecond = 0 then "" else "." ++ pad 6 dt.microsecond)

/-- Validity of a field combination, exactly as Python's `datetime`
constructor enforces it (MINYEAR = 1, MAXYEAR = 9999, month in 1..12, day in
1..days-in-month, hour ≤ 23, minute ≤ 59, second ≤ 59, microsecond ≤
999999); combinations outside these bounds raise ValueError. -/
def ValidParts (y m d h mi s micro : Nat) : Prop :=
  1 ≤ y ∧ y ≤ 9999 ∧ 1 ≤ m ∧ m ≤ 12 ∧ 1 ≤ d ∧ d ≤ daysInMonth y m
    ∧ h ≤ 23 ∧ mi ≤ 59 ∧ s ≤ 59 ∧ micro ≤ 999999

instance (y m d h mi s micro : Nat) : Decidable (ValidParts y m d h mi s micro) := by
  unfold ValidParts; infer_instance

/-- The `datetime(year, month, day, hour, minute, second, microsecond)`
constructor: validates the fields and stores them unchanged, raising
ValueError on an invalid combination (dttm.py line 160 calls it). -/
def datetimeCtor (y m d h mi s micro : Nat) : Except PyErr DT :=
  if ValidParts y m d h mi s micro then .ok ⟨y, m, d, h, mi, s, micro⟩
  else .error (.valueError "invalid date or time field")

/-- Source `temporal_from_parts` (dttm.py lines 140-160): returns
`str(datetime(year, month, day, hour, minute, second, microsecond))`; the
Python defaults are year=1970, month=1, day=1 and zero time fields. -/
def temporal_from_parts (y m d h mi s micro : Nat) : Except PyErr String :=
  (datetimeCtor y m d h mi s micro).map dtStr

/-- Whether an `Except` result is a success. -/
def isOk {α : Type} : Except PyErr α → Bool
  | .ok _ => true
  | .error _ => false

/-- Source `year` (dttm.py line 483): `parse_temporal(input_text).year`. -/
def year (r : PartialRec) (today : Date3) : Nat := (parse_temporal r today).year

/-- Source `month` (dttm.py line 499): `int(parse_temporal(input_text).month)`. -/
def month (r : PartialRec) (today : Date3) : Nat := (parse_temporal r today).month

/-- Source `day` (dttm.py line 531): `int(parse_temporal(input_text).day)`. -/
def day (r : PartialRec) (today : Date3) : Nat := (parse_temporal r today).day

/-- Source `quarter` (dttm.py line 547): `(month(input_text)-1)//3 + 1`. -/
def quarter (r : PartialRec) (today : Date3) : Nat := (month r today - 1) / 3 + 1

/-- Day of the year of a datetime (Python `timetuple().tm_yday`). -/
def dayOfYearOf (dt : DT) : Nat := daysBeforeMonth dt.year dt.month + dt.day

/-- Source `day_of_year` (dttm.py line 515):
`parse_temporal(input_text).timetuple().tm_yday`. -/
def day_of_year (r : PartialRec) (today : Date3) : Nat := dayOfYearOf (parse_temporal r today)

/-- Monday-based weekday index of a datetime, 0 = Monday .. 6 = Sunday
(Python `datetime.weekday()`, i.e. `timetuple().tm_wday`); ordinal 1
(0001-01-01) is a Monday. -/
def weekdayMon0 (dt : DT) : Nat :=
  ((toOrdinal dt.year dt.month dt.day + 6) % 7).toNat

/-- Week number that `strftime("%W")` prints: Monday-based week of the year,
with the days before the year's first Monday in week 0; the C-library
formula is `(yday0 + 7 - weekday_mon0) / 7` on the 0-based day of year. -/
def weekOf (dt : DT) : Nat := (dayOfYearOf dt - 1 + 7 - weekdayMon0 dt) / 7

/-- Source `week` (dttm.py line 563):
`int(parse_temporal(input_text).strftime("%W"))`. -/
def week (r : PartialRec) (today : Date3) : Nat := weekOf (parse_temporal r today)

/-- Ordinal of the Monday starting ISO week 1 of year `y` (CPython
`_isoweek1monday`). -/
def isoweek1monday (y : Nat) : Int :=
  let firstday := toOrdinal y 1 1
  let firstweekday := (firstday + 6) % 7
  firstday - firstweekday + (if 3 < firstweekday then 7 else 0)

/-- ISO week number of a datetime (CPython `date.isocalendar()[1]`). -/
def isoWeekOf (dt : DT) : Nat :=
  let todayOrd := toOrdinal dt.year dt.month dt.day
  let w := (todayOrd - isoweek1monday dt.year) / 7
  if w < 0 then
    ((todayOrd - isoweek1monday (dt.year - 1)) / 7 + 1).toNat
  else if 52 ≤ w ∧ isoweek1monday (dt.year + 1) ≤ todayOrd then 1
  else (w + 1).toNat

/-- Source `iso_week` (dttm.py line 579):
`int(parse_temporal(input_text).isocalendar()[1])`. -/
def iso_week (r : PartialRec) (today : Date3) : Nat := isoWeekOf (parse_temporal r today)

/-- English weekday names indexed by the Monday-based weekday
(strftime `%A`). -/
def dayNames : List String :=
  ["Monday", "Tuesday", "Wednesday", "Thursday", "Friday", "Saturday", "Sunday"]

/-- Source `day_name` (dttm.py line 595):
`parse_temporal(input_text).strftime("%A")`. -/
def day_name (r : PartialRec) (today : Date3) : String :=
  dayNames.getD (weekdayMon0 (parse_temporal r today)) ""

/-- Source `day_of_week` (dttm.py line 611):
`int(parse_temporal(input_text).timetuple().tm_wday)+1`, so 1 = Monday ..
7 = Sunday. -/
def day_of_week (r : PartialRec) (today : Date3) : Nat :=
  weekdayMon0 (parse_temporal r today) + 1

/-- Source `hour` (dttm.py line 627): `int(parse_temporal(input_text).hour)`. -/
def hour (r : PartialRec) (today : Date3) : Nat := (parse_temporal r today).hour

/-- Source `minute` (dttm.py line 643): `int(parse_temporal(input_text).minute)`. -/
def minute (r : PartialRec) (today : Date3) : Nat := (parse_temporal r today).minute

/-- Source `second` (dttm.py line 658): `int(parse_temporal(input_text).second)`. -/
def second (r : PartialRec) (today : Date3) : Nat := (parse_temporal r today).second

/-- Source `microsecond` (dttm.py line 673):
`long(parse_temporal(input_text).microsecond)`. -/
def microsecond (r : PartialRec) (today : Date3) : Nat :=
  (parse_temporal r today).microsecond

/-- Source `tz_offset` (dttm.py line 688):
`parse_temporal(input_text).strftime("%Z")`; on the naive datetimes this
model covers, `%Z` renders the empty string. -/
def tz_offset (_r : PartialRec) (_today : Date3) : String := ""

/-- The Unix reference instant `datetime(1970, 1, 1)`. -/
def unixEpochDT : DT := ⟨1970, 1, 1, 0, 0, 0, 0⟩

/-- Source `epoch` (dttm.py line 710):
`long((parse_temporal(input_text) - datetime(1970,1,1)).seconds)`.
Python's `timedelta` normalizes a difference into `(days, seconds,
microseconds)` with `0 ≤ seconds < 86400`, so `.seconds` is the
floor-division remainder of the elapsed whole seconds by 86400 -- the whole
days of the difference are discarded. -/
def epoch (r : PartialRec) (today : Date3) : Int :=
  ((totalMicros (parse_temporal r today) - totalMicros unixEpochDT) / 1000000) % 86400

/-- The value a `date_name` branch returns: always a string, except the
`weekday`/`dw` branch, which returns `weekday(input_text)` -- an instance of
the `dateutil.relativedelta.weekday` class (pulled in by the source's
star-imports) wrapping the raw input text, not a string. -/
inductive PyVal where
  | str : String → PyVal
  | weekdayObj : PartialRec → PyVal
deriving DecidableEq, Repr

/-- Components of a `dateutil.relativedelta` computed between two datetimes. -/
structure RDelta where
  years : Int
  months : Int
  days : Int
  hours : Int
  minutes : Int
  seconds : Int
  microseconds : Int
deriving DecidableEq, Repr

/-- The month-estimate adjustment loop of `relativedelta.__init__` for two
datetimes: starting from the year/month field difference, step the month
count until `dt2` advanced by it no longer overshoots `dt1`; the loop
terminates after at most one step, `fuel` bounds it conservatively. -/
def rdMonthsAdjust (dt1 dt2 : DT) : Nat → Int → Int
  | 0, months => months
  | fuel + 1, months =>
    let dtm := addMonthsRD months dt2
    if totalMicros dt1 < totalMicros dt2 then
      if totalMicros dtm < totalMicros dt1 then rdMonthsAdjust dt1 dt2 fuel (months + 1)
      else months
    else
      if totalMicros dt1 < totalMicros dtm then rdMonthsAdjust dt1 dt2 fuel (months - 1)
      else months

/-- Modelled from dateutil: `relativedelta(dt1, dt2)` -- the normalized
calendar-relative difference `dt1 - dt2`: a month count split into years and
months (sign-symmetric truncating division, dateutil `_fix`), and the exact
remaining time split into days, hours, minutes, seconds and microseconds,
every component carrying the sign of the difference. -/
def relativedelta2 (dt1 dt2 : DT) : RDelta :=
  let months0 : Int :=
    ((dt1.year : Int) - (dt2.year : Int)) * 12 + ((dt1.month : Int) - (dt2.month : Int))
  let months := rdMonthsAdjust dt1 dt2 36 months0
  let dtm := addMonthsRD months dt2
  let sgnM : Int := if months < 0 then -1 else 1
  let mAbs := months.natAbs
  let delta := totalMicros dt1 - totalMicros dtm
  let sgn : Int := if delta < 0 then -1 else 1
  let n0 := delta.natAbs
  let micro := n0 % 1000000
  let n1 := n0 / 1000000
  let s := n1 % 60
  let n2 := n1 / 60
  let mi := n2 % 60
  let n3 := n2 / 60
  let h := n3 % 24
  let d := n3 / 24
  { years := sgnM * (mAbs / 12 : Nat), months := sgnM * (mAbs % 12 : Nat)
    days := sgn * (d : Nat), hours := sgn * (h : Nat), minutes := sgn * (mi : Nat)
    seconds := sgn * (s : Nat), microseconds := sgn * (micro : Nat) }

/-- Source `date_name` (dttm.py lines 186-241): dispatches on the unit alias
and returns `str(...)` of the corresponding extractor.  Deviations the
source itself contains: the `microsecond`/`mcs` branch calls the undefined
name `microsoecond` (line 233) and so raises NameError; the `weekday`/`dw`
branch (line 223) returns a `weekday` class instance, not a string; an
unknown alias returns the empty string (line 241). -/
def date_name (date_part : String) (r : PartialRec) (today : Date3) : Except PyErr PyVal :=
  if date_part = "year" ∨ date_part = "yy" ∨ date_part = "yyyy" then
    .ok (.str (toString (year r today)))
  else if date_part = "quarter" ∨ date_part = "qq" ∨ date_part = "q" then
    .ok (.str (toString (quarter r today)))
  else if date_part = "month" ∨ date_part = "mm" ∨ date_part = "m" then
    .ok (.str (toString (month r today)))
  else if date_part = "day_of_year" ∨ date_part = "dy" ∨ date_part = "y" then
    .ok (.str (toString (day_of_year r today)))
  else if date_part = "day_name" ∨ date_part = "dn" then
    .ok (.str (day_name r today))
  else if date_part = "day" ∨ date_part = "dd" ∨ date_part = "d" then
    .ok (.str (toString (day r today)))
  else if date_part = "week" ∨ date_part = "wk" ∨ date_part = "ww" then
    .ok (.str (toString (week r today)))
  else if date_part = "weekday" ∨ date_part = "dw" then
    .ok (.weekdayObj r)
  else if date_part = "day_of_week" ∨ date_part = "dow" then
    .ok (.str (toString (day_of_week r today)))
  else if date_part = "hour" ∨ date_part = "hh" then
    .ok (.str (toString (hour r today)))
  else if date_part = "minute" ∨ date_part = "mi" ∨ date_part = "n" then
    .ok (.str (toString (minute r today)))
  else if date_part = "second" ∨ date_part = "ss" ∨ date_part = "s" then
    .ok (.str (toString (second r today)))
  else if date_part = "microsecond" ∨ date_part = "mcs" then
    .error (.nameError "global name microsoecond is not defined")
  else if date_part = "epoch" ∨ date_part = "unix" ∨ date_part = "ep" then
    .ok (.str (toString (epoch r today)))
  else if date_part = "TZoffset" ∨ date_part = "tz" then
    .ok (.str (tz_offset r today))
  else if date_part = "ISO_WEEK" ∨ date_part = "iso_wk" ∨ date_part = "isoww" then
    .ok (.str (toString (iso_week r today)))
  else .ok (.str "")

/-- Source `date_diff` (dttm.py lines 244-293): parses both inputs, computes
`relativedelta(end, start)` and returns `str` of the requested component.
The `quarter`/`qq`/`q` branch (line 277) reads `end_dt.years`, but `end_dt`
is a `datetime`, which has no `years` attribute -- Python raises
AttributeError there on every input.  An unknown alias returns the empty
string (line 293). -/
def date_diff (date_part : String) (startR endR : PartialRec) (today : Date3) :
    Except PyErr String :=
  let delta := relativedelta2 (parse_temporal endR today) (parse_temporal startR today)
  if date_part = "year" ∨ date_part = "yy" ∨ date_part = "yyyy" then
    .ok (toString delta.years)
  else if date_part = "quarter" ∨ date_part = "qq" ∨ date_part = "q" then
    .error (.attributeError "datetime object has no attribute years")
  else if date_part = "month" ∨ date_part = "mm" ∨ date_part = "m" then
    .ok (toString delta.months)
  else if date_part = "day" ∨ date_part = "dd" ∨ date_part = "d" then
    .ok (toString delta.days)
  else if date_part = "week" ∨ date_part = "wk" ∨ date_part = "ww" then
    .ok (toString (delta.days.tdiv 7))
  else if date_part = "hour" ∨ date_part = "hh" then
    .ok (toString delta.hours)
  else if date_part = "minute" ∨ date_part = "mi" ∨ date_part = "n" then
    .ok (toString delta.minutes)
  else if date_part = "second" ∨ date_part = "ss" ∨ date_part = "s" then
    .ok (toString delta.seconds)
  else if date_part = "microsecond" ∨ date_part = "mcs" then
    .ok (toString delta.microseconds)
  else .ok ""

/-- Source `date_add` (dttm.py lines 296-337): parses the input and adds the
requested `relativedelta`; year/quarter/month addition is calendar-aware
with day clamping, the remaining units are exact elapsed time.  The result
is `str(...)` of the new datetime for a known alias and the empty string
(modelled `none`) for an unknown one. -/
def date_add (date_part : String) (number : Int) (r : PartialRec) (today : Date3) :
    Option DT :=
  let dt := parse_temporal r today
  if date_part = "year" ∨ date_part = "yy" ∨ date_part = "yyyy" then
    some (addMonthsRD (12 * number) dt)
  else if date_part = "quarter" ∨ date_part = "qq" ∨ date_part = "q" then
    some (addMonthsRD (3 * number) dt)
  else if date_part = "month" ∨ date_part = "mm" ∨ date_part = "m" then
    some (addMonthsRD number dt)
  else if date_part = "week" ∨ date_part = "wk" ∨ date_part = "ww" then
    some (addMicros (number * 604800000000) dt)
  else if date_part = "day" ∨ date_part = "dd" ∨ date_part = "d" then
    some (addMicros (number * 86400000000) dt)
  else if date_part = "hour" ∨ date_part = "hh" then
    some (addMicros (number * 3600000000) dt)
  else if date_part = "minute" ∨ date_part = "mi" ∨ date_part = "n" then
    some (addMicros (number * 60000000) dt)
  else if date_part = "second" ∨ date_part = "ss" ∨ date_part = "s" then
    some (addMicros (number * 1000000) dt)
  else if date_part = "microsecond" ∨ date_part = "mcs" then
    some (addMicros number dt)
  else none

/-- Source `date_trunc` (dttm.py lines 340-377): parses the input and zeroes
every field below the requested unit via `datetime.replace`; the quarter
branch recomputes the month as `(3*(quarter(str(input_dt))-1))+1` through a
string round trip.  The result is `str(...)` of the truncated datetime for a
known alias and the empty string (modelled `none`) for an unknown one. -/
def date_trunc (date_part : String) (r : PartialRec) (today : Date3) : Option DT :=
  let input_dt := parse_temporal r today
  if date_part = "year" ∨ date_part = "yy" ∨ date_part = "yyyy" then
    some { input_dt with month := 1, day := 1, hour := 0, minute := 0, second := 0,
                         microsecond := 0 }
  else if date_part = "quarter" ∨ date_part = "qq" ∨ date_part = "q" then
    some { input_dt with month := 3 * (quarter (recordOf input_dt) today - 1) + 1, day := 1,
                         hour := 0, minute := 0, second := 0, microsecond := 0 }
  else if date_part = "month" ∨ date_part = "mm" ∨ date_part = "m" then
    some { input_dt with day := 1, hour := 0, minute := 0, second := 0, microsecond := 0 }
  else if date_part = "day" ∨ date_part = "dd" ∨ date_part = "d" then
    some { input_dt with hour := 0, minute := 0, second := 0, microsecond := 0 }
  else if date_part = "hour" ∨ date_part = "hh" then
    some { input_dt with minute := 0, second := 0, microsecond := 0 }
  else if date_part = "minute" ∨ date_part = "mi" ∨ date_part = "n" then
    some { input_dt with second := 0, microsecond := 0 }
  else if date_part = "second" ∨ date_part = "ss" ∨ date_part = "s" then
    some { input_dt with microsecond := 0 }
  else none

/-- Modelled from the spec (refinement comparison for the end-of claim):
`end_of(u, t) == add(Second, -1, truncate(u, add(u, 1, t)))`, expressed with
the code's own `date_add` and `date_trunc` and the same string round trips
the code performs. -/
def end_of_spec_formula (u : String) (r : PartialRec) (today : Date3) : Option DT :=
  (date_add u 1 r today).bind fun a =>
    (date_trunc u (recordOf a) today).bind fun b =>
      date_add "second" (-1) (recordOf b) today

/-- Modelled from the spec (refinement comparison for the epoch claim): the
"total signed number of elapsed seconds from 1970-01-01T00:00:00 to the
parsed instant's clock fields (including whole days)". -/
def epochSecondsSpec (dt : DT) : Int :=
  (totalMicros dt - totalMicros unixEpochDT) / 1000000

/-- Monday-based weekday index of January 1 of year `y`. -/
def jan1Mon0 (y : Nat) : Nat := ((toOrdinal y 1 1 + 6) % 7).toNat

/-- Modelled from the spec (refinement comparison for the week claim): the
week-of-year number "counted with the first `b` of the year as the week
boundary" (`b` a Monday-based weekday index, 0 = Monday, 6 = Sunday): the
number of `b`-weekdays that have occurred in the year up to and including
the given day, so the days before the year's first `b`-day are week 0 and
each `b`-day starts the next week. -/
def weekBoundaryCount (b : Nat) (dt : DT) : Nat :=
  ((List.range (dayOfYearOf dt)).filter (fun k => (jan1Mon0 dt.year + k) % 7 == b)).length

/-- Validity of a parsed temporal, i.e. of its datetime fields. -/
def ValidDT (dt : DT) : Prop :=
  ValidParts dt.year dt.month dt.day dt.hour dt.minute dt.second dt.microsecond

instance (dt : DT) : Decidable (ValidDT dt) := by
  unfold ValidDT; infer_instance

/-- The full unit-alias table of the library (spec section 6; the union of
the alias strings every dispatch function tests). -/
def allAliases : List String :=
  ["year", "yy", "yyyy", "quarter", "qq", "q", "month", "mm", "m",
   "day_of_year", "dy", "y", "day_name", "dn", "day", "dd", "d",
   "week", "wk", "ww", "weekday", "dw", "day_of_week", "dow",
   "hour", "hh", "minute", "mi", "n", "second", "ss", "s",
   "microsecond", "mcs", "epoch", "unix", "ep", "TZoffset", "tz",
   "ISO_WEEK", "iso_wk", "isoww"]

/-- The unit aliases `date_trunc` supports. -/
def truncAliases : List String :=
  ["year", "yy", "yyyy", "quarter", "qq", "q", "month", "mm", "m",
   "day", "dd", "d", "hour", "hh", "minute", "mi", "n", "second", "ss", "s"]

/-- Source `date_start_of` (dttm.py line 396): a synonym for `date_trunc`. -/
def date_start_of (date_part : String) (r : PartialRec) (today : Date3) : Option DT :=
  date_trunc date_part r today

/-- Source `date_end_of` (dttm.py lines 399-434): each branch advances the
parsed input by one unit, truncates the string form, and subtracts one
second from the string form of that.  The truncation units are the ones the
source actually passes: `quarter` in the year, quarter and month branches,
and `day` in the day, hour and minute branches. -/
def date_end_of (date_part : String) (r : PartialRec) (today : Date3) : Option DT :=
  let input_dt := parse_temporal r today
  if date_part = "year" ∨ date_part = "yy" ∨ date_part = "yyyy" then
    (date_trunc "quarter" (recordOf (addMonthsRD 12 input_dt)) today).bind fun t =>
      date_add "second" (-1) (recordOf t) today
  else if date_part = "quarter" ∨ date_part = "qq" ∨ date_part = "q" then
    (date_trunc "quarter" (recordOf (addMonthsRD 3 input_dt)) today).bind fun t =>
      date_add "second" (-1) (recordOf t) today
  else if date_part = "month" ∨ date_part = "mm" ∨ date_part = "m" then
    (date_trunc "quarter" (recordOf (addMonthsRD 1 input_dt)) today).bind fun t =>
      date_add "second" (-1) (recordOf t) today
  else if date_part = "day" ∨ date_part = "dd" ∨ date_part = "d" then
    (date_trunc "day" (recordOf (addMicros 86400000000 input_dt)) today).bind fun t =>
      date_add "second" (-1) (recordOf t) today
  else if date_part = "hour" ∨ date_part = "hh" then
    (date_trunc "day" (recordOf (addMicros 3600000000 input_dt)) today).bind fun t =>
      date_add "second" (-1) (recordOf t) today
  else if date_part = "minute" ∨ date_part = "mi" ∨ date_part = "n" then
    (date_trunc "day" (recordOf (addMicros 60000000 input_dt)) today).bind fun t =>
      date_add "second" (-1) (recordOf t) today
  else none

/-- Re-parsing the string form of a datetime yields the same datetime,
whatever the current date is: `str(datetime)` specifies every field (the
microsecond only when nonzero, whose default is zero anyway). -/
theorem parse_recordOf (dt : DT) (today : Date3) :
    parse_temporal (recordOf dt) today = dt := by
  cases dt with
  | mk y m d h mi s micro =>
    simp only [parse_temporal, recordOf, Option.getD_some]
    split <;> simp_all

/-- Counting the multiples-of-7 positions of an arithmetic progression over
a day window equals the closed-form strftime week formula. -/
theorem filterCount (a : Nat) (ha : a < 7) (n : Nat) :
    ((List.range (n + 1)).filter (fun k => (a + k) % 7 == 0)).length
      = (n + 7 - (a + n) % 7) / 7 := by
  have hstep : ∀ m : Nat,
      (List.filter (fun k => (a + k) % 7 == 0) [m]).length
        = if (a + m) % 7 = 0 then 1 else 0 := by
    intro m
    by_cases h : (a + m) % 7 = 0 <;> simp [List.filter_cons, h]
  induction n with
  | zero =>
    have h1 : List.range 1 = [0] := rfl
    rw [h1, hstep 0]
    split <;> rename_i h <;> omega
  | succ n ih =>
    rw [List.range_succ, List.filter_append, List.length_append, ih, hstep (n + 1)]
    split <;> rename_i h <;> omega

/-- Claim C1: `date_end_of(u, t)` is claimed to equal
`add(Second, -1, truncate(u, add(u, 1, t)))` for every unit in
{Year, Quarter, Month, Day, Hour, Minute}.  The code contradicts this (and
its own docstring, "the last second of the time period containing the
datetime"): the hour branch truncates at `day`, not `hour` (dttm.py line
430), so for input 2020-06-15 10:30:00 it returns 2020-06-14 23:59:59 while
the claimed formula gives 2020-06-15 10:59:59.  (The year and month branches
similarly truncate at `quarter`, dttm.py lines 422 and 426.) -/
theorem date_end_of_deviates_from_spec_formula :
    date_end_of "hour" ⟨some 2020, some 6, some 15, some 10, some 30, some 0, none⟩
        ⟨2026, 10, 12⟩ = some ⟨2020, 6, 14, 23, 59, 59, 0⟩
  ∧ end_of_spec_formula "hour" ⟨some 2020, some 6, some 15, some 10, some 30, some 0, none⟩
        ⟨2026, 10, 12⟩ = some ⟨2020, 6, 15, 10, 59, 59, 0⟩
  ∧ date_end_of "hour" ⟨some 2020, some 6, some 15, some 10, some 30, some 0, none⟩
        ⟨2026, 10, 12⟩
      ≠ end_of_spec_formula "hour" ⟨some 2020, some 6, some 15, some 10, some 30, some 0, none⟩
        ⟨2026, 10, 12⟩ := by
  refine ⟨by decide, by decide, ?_⟩
  decide

/-- Claim C2: `date_diff` with a quarter alias is claimed to return
`(end.year*4 + end.quarter) - (start.year*4 + start.quarter)` (5 for
2020-01-01 to 2021-04-01).  The quarter branch (dttm.py line 277) reads
`end_dt.years` on a `datetime` object, which has no `years` attribute, so
every quarter diff raises AttributeError instead of returning a number. -/
theorem date_diff_quarter_raises_attribute_error :
    date_diff "quarter" ⟨some 2020, some 1, some 1, none, none, none, none⟩
        ⟨some 2021, some 4, some 1, none, none, none, none⟩ ⟨2026, 10, 12⟩
      = .error (.attributeError "datetime object has no attribute years")
  ∧ date_diff "qq" ⟨some 2020, some 1, some 1, none, none, none, none⟩
        ⟨some 2021, some 4, some 1, none, none, none, none⟩ ⟨2026, 10, 12⟩
      = .error (.attributeError "datetime object has no attribute years")
  ∧ date_diff "q" ⟨some 2020, some 1, some 1, none, none, none, none⟩
        ⟨some 2021, some 4, some 1, none, none, none, none⟩ ⟨2026, 10, 12⟩
      = .error (.attributeError "datetime object has no attribute years") := by
  refine ⟨?_, ?_, ?_⟩ <;> rfl

/-- Claim C3: the epoch extraction is claimed to return the total signed
elapsed seconds from 1970-01-01T00:00:00.  The code returns only the
`.seconds` component of the timedelta (dttm.py line 710), discarding whole
days: for 1970-01-02 00:00:01 it returns 1 where the true elapsed count is
86401. -/
theorem epoch_discards_whole_days :
    epoch ⟨some 1970, some 1, some 2, some 0, some 0, some 1, none⟩ ⟨2026, 10, 12⟩ = 1
  ∧ epochSecondsSpec
      (parse_temporal ⟨some 1970, some 1, some 2, some 0, some 0, some 1, none⟩
        ⟨2026, 10, 12⟩) = 86401
  ∧ (1 : Int) ≠ 86401 := by
  refine ⟨by decide, by decide, by decide⟩

/-- Claim C7: `date_name` is claimed to succeed for every alias in the unit
table.  The `microsecond`/`mcs` branch (dttm.py line 233) calls the
undefined name `microsoecond` (the function defined at line 661 is spelled
`microsecond`), so both aliases raise NameError on every input instead of
returning the microsecond string. -/
theorem date_name_microsecond_name_error :
    date_name "mcs" ⟨some 2020, some 1, some 1, none, none, none, none⟩ ⟨2026, 10, 12⟩
      = .error (.nameError "global name microsoecond is not defined")
  ∧ date_name "microsecond" ⟨some 2020, some 1, some 1, none, none, none, none⟩
        ⟨2026, 10, 12⟩
      = .error (.nameError "global name microsoecond is not defined") := by
  exact ⟨rfl, rfl⟩

/-- Claim C9: `temporal_from_parts` errors exactly when the field
combination is not a valid calendar date (as Python's `datetime` constructor
defines validity), never silently normalizes a combination it accepts, and
in particular rejects 2021-02-29 and accepts 2020-02-29. -/
theorem temporal_from_parts_validates_calendar_dates :
    (∀ y m d h mi s micro : Nat,
        isOk (temporal_from_parts y m d h mi s micro) = true ↔ ValidParts y m d h mi s micro)
  ∧ (∀ y m d h mi s micro : Nat, ∀ t : DT,
        datetimeCtor y m d h mi s micro = .ok t →
          t.year = y ∧ t.month = m ∧ t.day = d ∧ t.hour = h ∧ t.minute = mi
            ∧ t.second = s ∧ t.microsecond = micro)
  ∧ isOk (temporal_from_parts 2021 2 29 0 0 0 0) = false
  ∧ isOk (temporal_from_parts 2020 2 29 0 0 0 0) = true := by
  refine ⟨?_, ?_, by decide, by decide⟩
  · intro y m d h mi s micro
    unfold temporal_from_parts datetimeCtor
    split <;> simp_all [isOk, Except.map]
  · intro y m d h mi s micro t h
    unfold datetimeCtor at h
    split at h
    · cases h; exact ⟨rfl, rfl, rfl, rfl, rfl, rfl, rfl⟩
    · cases h

/-- Witness for C9: the preservation clause applied at the accepted leap
date 2020-02-29. -/
theorem temporal_from_parts_validates_calendar_dates_witness :
    (⟨2020, 2, 29, 0, 0, 0, 0⟩ : DT).year = 2020
      ∧ (⟨2020, 2, 29, 0, 0, 0, 0⟩ : DT).month = 2
      ∧ (⟨2020, 2, 29, 0, 0, 0, 0⟩ : DT).day = 29
      ∧ (⟨2020, 2, 29, 0, 0, 0, 0⟩ : DT).hour = 0
      ∧ (⟨2020, 2, 29, 0, 0, 0, 0⟩ : DT).minute = 0
      ∧ (⟨2020, 2, 29, 0, 0, 0, 0⟩ : DT).second = 0
      ∧ (⟨2020, 2, 29, 0, 0, 0, 0⟩ : DT).microsecond = 0 :=
  temporal_from_parts_validates_calendar_dates.2.1 2020 2 29 0 0 0 0
    ⟨2020, 2, 29, 0, 0, 0, 0⟩ rfl

/-- Counterexample to claim C4: for the unknown alias "bogus", `date_name`
returns the empty string as a successful result (dttm.py line 241) -- no
UnknownUnitError is reported, contradicting both parts of the claim. -/
theorem date_name_unknown_alias_returns_empty_string :
    date_name "bogus" ⟨some 2020, some 1, some 1, none, none, none, none⟩ ⟨2026, 10, 12⟩
      = .ok (.str "") := by
  rfl

/-- Claim C4, amended: for every unit-alias string outside the fixed alias
table, each dispatch operation silently yields the empty-string result (the
legacy `''` convention; `none` models the `''` return of the functions whose
successful results are datetime strings) rather than reporting an explicit
error. -/
theorem unknown_alias_yields_empty_result (s : String) (hs : s ∉ allAliases)
    (r r2 : PartialRec) (nb : Int) (today : Date3) :
    date_name s r today = .ok (.str "")
  ∧ date_diff s r r2 today = .ok ""
  ∧ date_add s nb r today = none
  ∧ date_trunc s r today = none
  ∧ date_start_of s r today = none
  ∧ date_end_of s r today = none := by
  simp only [allAliases, List.mem_cons, List.not_mem_nil, or_false, not_or] at hs
  obtain ⟨h1, h2, h3, h4, h5, h6, h7, h8, h9, h10, h11, h12, h13, h14, h15, h16, h17,
    h18, h19, h20, h21, h22, h23, h24, h25, h26, h27, h28, h29, h30, h31, h32, h33,
    h34, h35, h36, h37, h38, h39, h40, h41, h42⟩ := hs
  refine ⟨?_, ?_, ?_, ?_, ?_, ?_⟩ <;>
    simp [date_name, date_diff, date_add, date_trunc, date_start_of, date_end_of,
      h1, h2, h3, h4, h5, h6, h7, h8, h9, h10, h11, h12, h13, h14, h15, h16, h17,
      h18, h19, h20, h21, h22, h23, h24, h25, h26, h27, h28, h29, h30, h31, h32, h33,
      h34, h35, h36, h37, h38, h39, h40, h41, h42]

/-- Witness for the amended C4 at the concrete unknown alias "bogus". -/
theorem unknown_alias_yields_empty_result_witness :
    date_name "bogus" ⟨none, none, none, none, none, none, none⟩ ⟨2020, 1, 1⟩
        = .ok (.str "")
  ∧ date_diff "bogus" ⟨none, none, none, none, none, none, none⟩
        ⟨none, none, none, none, none, none, none⟩ ⟨2020, 1, 1⟩ = .ok ""
  ∧ date_add "bogus" 0 ⟨none, none, none, none, none, none, none⟩ ⟨2020, 1, 1⟩ = none
  ∧ date_trunc "bogus" ⟨none, none, none, none, none, none, none⟩ ⟨2020, 1, 1⟩ = none
  ∧ date_start_of "bogus" ⟨none, none, none, none, none, none, none⟩ ⟨2020, 1, 1⟩ = none
  ∧ date_end_of "bogus" ⟨none, none, none, none, none, none, none⟩ ⟨2020, 1, 1⟩ = none :=
  unknown_alias_yields_empty_result "bogus" (by decide)
    ⟨none, none, none, none, none, none, none⟩
    ⟨none, none, none, none, none, none, none⟩ 0 ⟨2020, 1, 1⟩

/-- Counterexample to claim C5: an input that specifies only a time (no date
component) does not parse to the date 1970-01-01 -- dateutil fills the
missing date fields from the current date, here 2026-10-12. -/
theorem parse_defaults_use_current_date_not_epoch :
    (parse_temporal ⟨none, none, none, some 10, some 49, some 41, none⟩
        ⟨2026, 10, 12⟩).year = 2026
  ∧ (parse_temporal ⟨none, none, none, some 10, some 49, some 41, none⟩
        ⟨2026, 10, 12⟩).month = 10
  ∧ (parse_temporal ⟨none, none, none, some 10, some 49, some 41, none⟩
        ⟨2026, 10, 12⟩).day = 12
  ∧ ¬((parse_temporal ⟨none, none, none, some 10, some 49, some 41, none⟩
        ⟨2026, 10, 12⟩).year = 1970
      ∧ (parse_temporal ⟨none, none, none, some 10, some 49, some 41, none⟩
        ⟨2026, 10, 12⟩).month = 1
      ∧ (parse_temporal ⟨none, none, none, some 10, some 49, some 41, none⟩
        ⟨2026, 10, 12⟩).day = 1) := by
  refine ⟨rfl, rfl, rfl, by decide⟩

/-- Claim C5, amended: fields the input does not specify are filled from the
default instant dateutil actually uses -- the current date at midnight: if
no date component is present the parsed date is the current date (not
1970-01-01), and if a date is present but the time is omitted the parsed
time is midnight. -/
theorem parse_temporal_default_filling (r : PartialRec) (today : Date3) :
    (r.year = none ∧ r.month = none ∧ r.day = none →
      (parse_temporal r today).year = today.y
        ∧ (parse_temporal r today).month = today.m
        ∧ (parse_temporal r today).day = today.d)
  ∧ (r.hour = none ∧ r.minute = none ∧ r.second = none ∧ r.microsecond = none →
      (parse_temporal r today).hour = 0
        ∧ (parse_temporal r today).minute = 0
        ∧ (parse_temporal r today).second = 0
        ∧ (parse_temporal r today).microsecond = 0) := by
  constructor
  · rintro ⟨hy, hm, hd⟩
    simp [parse_temporal, hy, hm, hd]
  · rintro ⟨hh, hmi, hs, hmicro⟩
    simp [parse_temporal, hh, hmi, hs, hmicro]

/-- Witness for the amended C5 at the empty record (a pure-prose input with
no temporal fields at all -- both hypotheses hold). -/
theorem parse_temporal_default_filling_witness :
    ((parse_temporal ⟨none, none, none, none, none, none, none⟩ ⟨2020, 5, 7⟩).year = 2020
        ∧ (parse_temporal ⟨none, none, none, none, none, none, none⟩ ⟨2020, 5, 7⟩).month = 5
        ∧ (parse_temporal ⟨none, none, none, none, none, none, none⟩ ⟨2020, 5, 7⟩).day = 7)
  ∧ ((parse_temporal ⟨none, none, none, none, none, none, none⟩ ⟨2020, 5, 7⟩).hour = 0
        ∧ (parse_temporal ⟨none, none, none, none, none, none, none⟩ ⟨2020, 5, 7⟩).minute = 0
        ∧ (parse_temporal ⟨none, none, none, none, none, none, none⟩ ⟨2020, 5, 7⟩).second = 0
        ∧ (parse_temporal ⟨none, none, none, none, none, none, none⟩
            ⟨2020, 5, 7⟩).microsecond = 0) :=
  ⟨(parse_temporal_default_filling ⟨none, none, none, none, none, none, none⟩
      ⟨2020, 5, 7⟩).1 ⟨rfl, rfl, rfl⟩,
   (parse_temporal_default_filling ⟨none, none, none, none, none, none, none⟩
      ⟨2020, 5, 7⟩).2 ⟨rfl, rfl, rfl, rfl⟩⟩

/-- Counterexample to claim C6: `parse_temporal` is not deterministic across
time -- the same time-only input parses to different values when the current
date has moved by a day, because dateutil's default instant is the current
date. -/
theorem parse_temporal_depends_on_current_date :
    parse_temporal ⟨none, none, none, some 10, some 49, some 41, none⟩ ⟨2026, 10, 12⟩
      ≠ parse_temporal ⟨none, none, none, some 10, some 49, some 41, none⟩ ⟨2026, 10, 13⟩ := by
  decide

/-- Claim C6, amended: `parse_temporal` is deterministic for a fixed current
date (it is a pure function of the extracted fields and the current date),
and for any input that specifies its full date -- year, month and day -- the
result is independent of when the call runs. -/
theorem parse_temporal_deterministic_given_current_date (r : PartialRec) (t1 t2 : Date3)
    (hy : r.year.isSome) (hm : r.month.isSome) (hd : r.day.isSome) :
    parse_temporal r t1 = parse_temporal r t2 := by
  obtain ⟨y, hy⟩ := Option.isSome_iff_exists.mp hy
  obtain ⟨m, hm⟩ := Option.isSome_iff_exists.mp hm
  obtain ⟨d, hd⟩ := Option.isSome_iff_exists.mp hd
  simp [parse_temporal, hy, hm, hd]

/-- Witness for the amended C6 at a fully dated input and two different
current dates. -/
theorem parse_temporal_deterministic_given_current_date_witness :
    parse_temporal ⟨some 2003, some 9, some 25, some 10, some 49, some 41, none⟩
        ⟨2026, 10, 12⟩
      = parse_temporal ⟨some 2003, some 9, some 25, some 10, some 49, some 41, none⟩
        ⟨2026, 10, 13⟩ :=
  parse_temporal_deterministic_given_current_date
    ⟨some 2003, some 9, some 25, some 10, some 49, some 41, none⟩
    ⟨2026, 10, 12⟩ ⟨2026, 10, 13⟩ rfl rfl rfl

/-- Counterexample to claim C8: on 2021-01-03 (a Sunday, the first Sunday of
2021), the `week` extraction returns 0, while a week number counted with the
first Sunday of the year as the week boundary is 1 there -- strftime's `%W`
is Monday-based, not Sunday-based. -/
theorem week_is_not_sunday_based :
    week (recordOf ⟨2021, 1, 3, 0, 0, 0, 0⟩) ⟨2026, 10, 12⟩ = 0
  ∧ weekBoundaryCount 6 (parse_temporal (recordOf ⟨2021, 1, 3, 0, 0, 0, 0⟩) ⟨2026, 10, 12⟩) = 1
  ∧ (0 : Nat) ≠ 1 := by
  refine ⟨by decide, by decide, by decide⟩

/-- Claim C8, amended: for every parseable input, the non-ISO week
extraction (`week`, aliases week/wk/ww) returns the week-of-year number
counted with the first Monday of the year as the week boundary (strftime
`%W` semantics), not the first Sunday. -/
theorem week_counts_from_first_monday (r : PartialRec) (today : Date3)
    (h : ValidDT (parse_temporal r today)) :
    week r today = weekBoundaryCount 0 (parse_temporal r today) := by
  have hd : 1 ≤ (parse_temporal r today).day := h.2.2.2.2.1
  show weekOf (parse_temporal r today) = weekBoundaryCount 0 (parse_temporal r today)
  generalize parse_temporal r today = dt at hd
  obtain ⟨y, m, d, hh, mi, s, micro⟩ := dt
  simp only [weekOf, weekBoundaryCount, dayOfYearOf] at hd ⊢
  have hdbm1 : daysBeforeMonth y 1 = 0 := by
    simp [daysBeforeMonth, DAYS_BEFORE_MONTH_TABLE]
  have ha : jan1Mon0 y < 7 := by
    simp only [jan1Mon0]; omega
  have hshift : toOrdinal y m d + 6
      = (toOrdinal y 1 1 + 6) + (daysBeforeMonth y m + d - 1 : Nat) := by
    simp only [toOrdinal, hdbm1]
    omega
  have hwd : weekdayMon0 ⟨y, m, d, hh, mi, s, micro⟩
      = (jan1Mon0 y + (daysBeforeMonth y m + d - 1)) % 7 := by
    simp only [weekdayMon0, jan1Mon0]
    rw [hshift]
    omega
  rw [hwd]
  rw [show daysBeforeMonth y m + d = (daysBeforeMonth y m + d - 1) + 1 from by omega]
  rw [filterCount (jan1Mon0 y) ha (daysBeforeMonth y m + d - 1)]
  omega

/-- Witness for the amended C8 at 2021-01-04, the first Monday of 2021. -/
theorem week_counts_from_first_monday_witness :
    week (recordOf ⟨2021, 1, 4, 0, 0, 0, 0⟩) ⟨2026, 10, 12⟩
      = weekBoundaryCount 0 (parse_temporal (recordOf ⟨2021, 1, 4, 0, 0, 0, 0⟩)
          ⟨2026, 10, 12⟩) :=
  week_counts_from_first_monday (recordOf ⟨2021, 1, 4, 0, 0, 0, 0⟩) ⟨2026, 10, 12⟩
    (by decide)

/-- Quarter extraction of a re-parsed datetime string, in terms of the
datetime's own month field. -/
theorem quarter_recordOf (q : DT) (t : Date3) :
    quarter (recordOf q) t = (q.month - 1) / 3 + 1 := by
  simp [quarter, month, parse_recordOf]

/-- The quarter branch of `date_trunc`, characterized for each of its three
aliases. -/
theorem trunc_quarter_chr (u : String) (hu : u = "quarter" ∨ u = "qq" ∨ u = "q")
    (rr : PartialRec) (tt : Date3) :
    date_trunc u rr tt = some { parse_temporal rr tt with
      month := 3 * (quarter (recordOf (parse_temporal rr tt)) tt - 1) + 1, day := 1,
      hour := 0, minute := 0, second := 0, microsecond := 0 } := by
  rcases hu with rfl | rfl | rfl <;> rfl

/-- Claim C10: `date_trunc` is idempotent for every supported truncation
alias -- truncating the (string) result of a truncation again at the same
unit, even at a later current date, returns the same value. -/
theorem date_trunc_idempotent (u : String) (hu : u ∈ truncAliases)
    (r : PartialRec) (today today' : Date3) (dt : DT)
    (h : date_trunc u r today = some dt) :
    date_trunc u (recordOf dt) today' = some dt := by
  simp only [truncAliases, List.mem_cons, List.not_mem_nil, or_false] at hu
  rcases hu with rfl | rfl | rfl | rfl | rfl | rfl | rfl | rfl | rfl | rfl | rfl | rfl |
    rfl | rfl | rfl | rfl | rfl | rfl | rfl | rfl
  all_goals first
  | (obtain rfl := Option.some.inj h; rfl)
  | (rw [trunc_quarter_chr _ (by simp)] at h
     obtain rfl := Option.some.inj h
     rw [trunc_quarter_chr _ (by simp), parse_recordOf]
     simp only [quarter_recordOf]
     simp [Option.some.injEq, DT.mk.injEq])

/-- Witness for C10: truncating 2020-08-15 10:30 to the month and
re-truncating the result on a later day. -/
theorem date_trunc_idempotent_witness :
    date_trunc "month" (recordOf ⟨2020, 8, 1, 0, 0, 0, 0⟩) ⟨2026, 10, 13⟩
      = some ⟨2020, 8, 1, 0, 0, 0, 0⟩ :=
  date_trunc_idempotent "month" (by decide)
    ⟨some 2020, some 8, some 15, some 10, some 30, none, none⟩
    ⟨2026, 10, 12⟩ ⟨2026, 10, 13⟩ ⟨2020, 8, 1, 0, 0, 0, 0⟩ rfl

end Dttm
